import Mathlib

/-!
Shallow embedding of `drivers/gpu/drm/panel/panel-samsung-ea8074.c`.

The driver is straight-line C over a MIPI DSI transport.  We model the
transport as an oracle `env : Nat → Int` giving the return value of the
k-th command transmission of a call (the kernel helpers return a
negative errno on failure, and the driver checks `ret < 0`).  Every
observable action (command transmission, sleep, reset-GPIO write,
`dev_err` diagnostic) is recorded in a trace of `Event`s, and the
mutable driver state (`ctx->prepared`, the reset GPIO level,
`dsi->mode_flags`) is passed explicitly.
-/

/-- A DCS/generic command as transmitted on the bus: opcode byte plus
parameter bytes, exactly as built by the `mipi_dsi_dcs_*` helpers. -/
structure DsiCmd where
  opcode : Nat
  params : List Nat
deriving DecidableEq, Repr

/-- `mipi_dsi_dcs_exit_sleep_mode`: opcode 0x11, no parameters. -/
def mipi_dsi_dcs_exit_sleep_mode : DsiCmd := ⟨0x11, []⟩

/-- `mipi_dsi_dcs_enter_sleep_mode`: opcode 0x10, no parameters. -/
def mipi_dsi_dcs_enter_sleep_mode : DsiCmd := ⟨0x10, []⟩

/-- `mipi_dsi_dcs_set_display_on`: opcode 0x29, no parameters. -/
def mipi_dsi_dcs_set_display_on : DsiCmd := ⟨0x29, []⟩

/-- `mipi_dsi_dcs_set_display_off`: opcode 0x28, no parameters. -/
def mipi_dsi_dcs_set_display_off : DsiCmd := ⟨0x28, []⟩

/-- `mipi_dsi_dcs_set_column_address start end`: opcode 0x2A with the
two 16-bit bounds serialized big-endian, as in drm_mipi_dsi.c. -/
def mipi_dsi_dcs_set_column_address (s e : Nat) : DsiCmd :=
  ⟨0x2A, [s / 256 % 256, s % 256, e / 256 % 256, e % 256]⟩

/-- `mipi_dsi_dcs_set_page_address start end`: opcode 0x2B with the
two 16-bit bounds serialized big-endian. -/
def mipi_dsi_dcs_set_page_address (s e : Nat) : DsiCmd :=
  ⟨0x2B, [s / 256 % 256, s % 256, e / 256 % 256, e % 256]⟩

/-- `mipi_dsi_dcs_set_tear_on mode`: opcode 0x35 with the mode byte;
`MIPI_DSI_DCS_TEAR_MODE_VBLANK = 0`. -/
def mipi_dsi_dcs_set_tear_on (mode : Nat) : DsiCmd := ⟨0x35, [mode % 256]⟩

/-- `MIPI_DSI_DCS_TEAR_MODE_VBLANK` from drm_mipi_dsi.h. -/
def MIPI_DSI_DCS_TEAR_MODE_VBLANK : Nat := 0

/-- `mipi_dsi_dcs_set_display_brightness v`: opcode 0x51, 16-bit value
serialized little-endian (drm_mipi_dsi.c). -/
def mipi_dsi_dcs_set_display_brightness (v : Nat) : DsiCmd :=
  ⟨0x51, [v % 256, v / 256 % 256]⟩

/-- `mipi_dsi_dcs_set_display_brightness_large v`: opcode 0x51, 16-bit
value serialized big-endian (drm_mipi_dsi.c). -/
def mipi_dsi_dcs_set_display_brightness_large (v : Nat) : DsiCmd :=
  ⟨0x51, [v / 256 % 256, v % 256]⟩

/-- `MIPI_DCS_WRITE_MEMORY_START` (0x2C), sent by
`mipi_dsi_dcs_write_seq(dsi, MIPI_DCS_WRITE_MEMORY_START)`. -/
def MIPI_DCS_WRITE_MEMORY_START : Nat := 0x2C

/-- `MIPI_DCS_WRITE_CONTROL_DISPLAY` (0x53). -/
def MIPI_DCS_WRITE_CONTROL_DISPLAY : Nat := 0x53

/-- `MIPI_DCS_WRITE_POWER_SAVE` (0x55). -/
def MIPI_DCS_WRITE_POWER_SAVE : Nat := 0x55

/-- A `mipi_dsi_dcs_write_seq(dsi, cmd, seq...)` transmission: raw
opcode plus parameter bytes. -/
def dcs_write_seq (opcode : Nat) (params : List Nat) : DsiCmd := ⟨opcode, params⟩

/-- A post-command settle delay: `usleep_range(lo, hi)` in µs or
`msleep(n)` in ms. -/
inductive Delay where
  | usleepRange (lo hi : Nat)
  | msleep (ms : Nat)
deriving DecidableEq, Repr

/-- Observable events of a driver call. -/
inductive Event where
  | cmd (c : DsiCmd)
  | sleep (d : Delay)
  | setReset (v : Nat)
  | devErr
deriving DecidableEq, Repr

/-- The events a step's delay contributes to the trace. -/
def delayEvents : Option Delay → List Event
  | none => []
  | some d => [Event.sleep d]

/-- One entry of a command sequence: the command, and the settle delay
the source executes after it succeeds (if any). -/
structure Step where
  cmd : DsiCmd
  delay : Option Delay
deriving DecidableEq, Repr

/-- Shorthand for the ubiquitous `usleep_range(10000, 11000)`. -/
def shortSettle : Option Delay := some (Delay.usleepRange 10000 11000)

/-- The power-on command sequence of `samsung_ea8074_on`, in source
order, each with the delay executed after it. -/
def onSteps : List Step :=
  [ ⟨mipi_dsi_dcs_exit_sleep_mode, shortSettle⟩
  , ⟨mipi_dsi_dcs_set_column_address 0x0000 0x0437, shortSettle⟩
  , ⟨mipi_dsi_dcs_set_page_address 0x0000 0x086F, shortSettle⟩
  , ⟨mipi_dsi_dcs_set_tear_on MIPI_DSI_DCS_TEAR_MODE_VBLANK, shortSettle⟩
  , ⟨dcs_write_seq MIPI_DCS_WRITE_CONTROL_DISPLAY [0x20], shortSettle⟩
  , ⟨mipi_dsi_dcs_set_display_brightness 0x0000, shortSettle⟩
  , ⟨dcs_write_seq MIPI_DCS_WRITE_POWER_SAVE [0x00], shortSettle⟩
  , ⟨dcs_write_seq 0xF0 [0x5A, 0x5A], shortSettle⟩
  , ⟨dcs_write_seq 0xB0 [0x06], shortSettle⟩
  , ⟨dcs_write_seq 0xEF [0x35], shortSettle⟩
  , ⟨dcs_write_seq 0xCC [0x55, 0x12], shortSettle⟩
  , ⟨dcs_write_seq 0xFC [0x5A, 0x5A], shortSettle⟩
  , ⟨dcs_write_seq 0xB0 [0x01], shortSettle⟩
  , ⟨dcs_write_seq 0xD2 [0x20], shortSettle⟩
  , ⟨dcs_write_seq 0xB0 [0x05], shortSettle⟩
  , ⟨dcs_write_seq 0xD2 [0x40], shortSettle⟩
  , ⟨dcs_write_seq 0xFC [0xA5, 0xA5], shortSettle⟩
  , ⟨dcs_write_seq 0xF0 [0xA5, 0xA5], some (Delay.msleep 110)⟩
  , ⟨dcs_write_seq MIPI_DCS_WRITE_MEMORY_START [], shortSettle⟩
  , ⟨mipi_dsi_dcs_set_display_on, shortSettle⟩
  , ⟨dcs_write_seq 0xF0 [0x5A, 0x5A], shortSettle⟩
  , ⟨dcs_write_seq 0xB0 [0x05], shortSettle⟩
  , ⟨dcs_write_seq 0xB1 [0x40], shortSettle⟩
  , ⟨dcs_write_seq 0xB0 [0x03], shortSettle⟩
  , ⟨dcs_write_seq 0xB6 [0xA2], shortSettle⟩
  , ⟨dcs_write_seq 0xF0 [0xA5, 0xA5], shortSettle⟩
  , ⟨mipi_dsi_dcs_set_display_on, some (Delay.msleep 120)⟩ ]

/-- The power-off command sequence of `samsung_ea8074_off`: display-off
(no delay after it in the source), then enter-sleep followed by
`msleep(120)`. -/
def offSteps : List Step :=
  [ ⟨mipi_dsi_dcs_set_display_off, none⟩
  , ⟨mipi_dsi_dcs_enter_sleep_mode, some (Delay.msleep 120)⟩ ]

/-- Run a command sequence against transport oracle `env`, the k-th
transmission of this call returning `env k`.  Mirrors the straight-line
source: send the command; if the transport result is negative, abort
and return it; otherwise perform the step's delay and continue.
Returns the overall result (0 on success) and the event trace. -/
def runSeq (env : Nat → Int) : List Step → Nat → Int × List Event
  | [], _ => (0, [])
  | s :: rest, k =>
      if env k < 0 then
        (env k, [Event.cmd s.cmd])
      else
        let r := runSeq env rest (k + 1)
        (r.1, Event.cmd s.cmd :: (delayEvents s.delay ++ r.2))

/-- `samsung_ea8074_on`: run the power-on sequence. -/
def samsung_ea8074_on (env : Nat → Int) : Int × List Event :=
  runSeq env onSteps 0

/-- `samsung_ea8074_off`: run the power-off sequence. -/
def samsung_ea8074_off (env : Nat → Int) : Int × List Event :=
  runSeq env offSteps 0

/-- The mutable per-panel state: `ctx->prepared` and the last value
written to the reset GPIO (1 = reset asserted). -/
structure PanelState where
  prepared : Bool
  reset : Nat
deriving DecidableEq, Repr

/-- `samsung_ea8074_reset`: deassert, hold, assert, hold, deassert,
hold.  Returns the trace; the GPIO ends at level 0 (deasserted). -/
def samsung_ea8074_reset_trace : List Event :=
  [ Event.setReset 0, Event.sleep (Delay.usleepRange 1000 2000)
  , Event.setReset 1, Event.sleep (Delay.usleepRange 1000 2000)
  , Event.setReset 0, Event.sleep (Delay.usleepRange 10000 11000) ]

/-- `samsung_ea8074_prepare`: no-op success when already prepared;
otherwise reset pulse, power-on sequence, and on failure log, assert
the reset GPIO and propagate the error; on success set `prepared`. -/
def samsung_ea8074_prepare (env : Nat → Int) (st : PanelState) :
    Int × PanelState × List Event :=
  if st.prepared then
    (0, st, [])
  else
    let r := samsung_ea8074_on env
    if r.1 < 0 then
      (r.1, { st with reset := 1 },
        samsung_ea8074_reset_trace ++ r.2 ++ [Event.devErr, Event.setReset 1])
    else
      (0, { st with prepared := true, reset := 0 },
        samsung_ea8074_reset_trace ++ r.2)

/-- `samsung_ea8074_unprepare`: no-op success when already unprepared;
otherwise run the power-off sequence (logging on failure, without
propagating the error), assert the reset GPIO, clear `prepared`, and
return 0 unconditionally. -/
def samsung_ea8074_unprepare (env : Nat → Int) (st : PanelState) :
    Int × PanelState × List Event :=
  if !st.prepared then
    (0, st, [])
  else
    let r := samsung_ea8074_off env
    let errTr := if r.1 < 0 then [Event.devErr] else []
    (0, { st with prepared := false, reset := 1 },
      r.2 ++ errTr ++ [Event.setReset 1])

/-- Project the commands out of a trace. -/
def cmdsOf (tr : List Event) : List DsiCmd :=
  tr.filterMap fun e => match e with
    | Event.cmd c => some c
    | _ => none

/-- The commands of a sequence in order. -/
def cmdList (steps : List Step) : List DsiCmd := steps.map Step.cmd

/-! ## Backlight bridge -/

/-- `MIPI_DSI_MODE_LPM` = BIT(11) from drm_mipi_dsi.h: transmit data in
low power. -/
def MIPI_DSI_MODE_LPM : Nat := 2 ^ 11

/-- `MIPI_DSI_MODE_VIDEO_BURST` = BIT(1). -/
def MIPI_DSI_MODE_VIDEO_BURST : Nat := 2 ^ 1

/-- `MIPI_DSI_CLOCK_NON_CONTINUOUS` = BIT(10). -/
def MIPI_DSI_CLOCK_NON_CONTINUOUS : Nat := 2 ^ 10

/-- `dsi->mode_flags` as set by `samsung_ea8074_probe`. -/
def probeModeFlags : Nat :=
  MIPI_DSI_MODE_VIDEO_BURST ||| MIPI_DSI_CLOCK_NON_CONTINUOUS ||| MIPI_DSI_MODE_LPM

/-- `flags &= ~MIPI_DSI_MODE_LPM` on the unsigned-long `mode_flags`
(64-bit complement of the single bit). -/
def clearLPM (flags : Nat) : Nat := flags &&& (2 ^ 64 - 1 - MIPI_DSI_MODE_LPM)

/-- `flags |= MIPI_DSI_MODE_LPM`. -/
def setLPM (flags : Nat) : Nat := flags ||| MIPI_DSI_MODE_LPM

/-- The LPM bit of a flag word. -/
def lpmBit (flags : Nat) : Nat := flags &&& MIPI_DSI_MODE_LPM

/-- `samsung_ea8074_bl_update_status`: clear the LPM flag, send the
16-bit brightness write whose transport result is `wr`; on failure
return it at once (the flag stays cleared); on success restore (set)
the flag and return 0.  Result: (return value, new `mode_flags`,
trace). -/
def samsung_ea8074_bl_update_status (wr : Int) (brightness : Nat)
    (flags : Nat) : Int × Nat × List Event :=
  let flags1 := clearLPM flags
  let tr := [Event.cmd (mipi_dsi_dcs_set_display_brightness_large (brightness % 65536))]
  if wr < 0 then
    (wr, flags1, tr)
  else
    (0, setLPM flags1, tr)

/-- `samsung_ea8074_bl_get_brightness`: clear the LPM flag, perform the
2-byte brightness read; the transport yields result `rd` and payload
bytes `b0`, `b1` (stored in `u8`s, hence reduced mod 256); on failure
return `rd` at once (the flag stays cleared); on success restore the
flag and return `(b0 << 8) | b1`. -/
def samsung_ea8074_bl_get_brightness (rd : Int) (b0 b1 : Nat)
    (flags : Nat) : Int × Nat :=
  let flags1 := clearLPM flags
  if rd < 0 then
    (rd, flags1)
  else
    (Int.ofNat ((b0 % 256) * 256 + b1 % 256), setLPM flags1)

/-! ## Mode descriptor -/

/-- The fields of `struct drm_display_mode` the driver initializes. -/
structure DrmDisplayMode where
  clock : Nat
  hdisplay : Nat
  hsync_start : Nat
  hsync_end : Nat
  htotal : Nat
  vdisplay : Nat
  vsync_start : Nat
  vsync_end : Nat
  vtotal : Nat
  width_mm : Nat
  height_mm : Nat
deriving DecidableEq, Repr

/-- `samsung_ea8074_mode`, field for field from the source (the clock
expression uses C truncating division on positive operands, which is
Nat division). -/
def samsung_ea8074_mode : DrmDisplayMode :=
  { clock := (1080 + 48 + 16 + 48) * (2160 + 20 + 12 + 28) * 60 / 1000
  , hdisplay := 1080
  , hsync_start := 1080 + 48
  , hsync_end := 1080 + 48 + 16
  , htotal := 1080 + 48 + 16 + 48
  , vdisplay := 2160
  , vsync_start := 2160 + 20
  , vsync_end := 2160 + 20 + 12
  , vtotal := 2160 + 20 + 12 + 28
  , width_mm := 68
  , height_mm := 137 }

/-- Panel state right after `samsung_ea8074_probe`: `devm_kzalloc`
zero-fills `prepared`, and the reset GPIO is requested with
`GPIOD_OUT_HIGH` (asserted). -/
def probeState : PanelState := { prepared := false, reset := 1 }

/-- In `l`, every occurrence of `a` is at a strictly smaller position
than every occurrence of `b`. -/
abbrev precedes (a b : DsiCmd) (l : List DsiCmd) : Prop :=
  ∀ i : Fin l.length, ∀ j : Fin l.length,
    l.get i = a → l.get j = b → (i : Nat) < (j : Nat)

/-! ## Sequencer lemmas -/

/-- The full trace of a sequence when every transmission succeeds. -/
def fullTrace : List Step → List Event
  | [] => []
  | s :: rest => Event.cmd s.cmd :: (delayEvents s.delay ++ fullTrace rest)

theorem cmdsOf_append (a b : List Event) :
    cmdsOf (a ++ b) = cmdsOf a ++ cmdsOf b := by
  simp [cmdsOf, List.filterMap_append]

theorem cmdsOf_delayEvents (d : Option Delay) : cmdsOf (delayEvents d) = [] := by
  cases d <;> rfl

theorem cmdsOf_cons_cmd (c : DsiCmd) (tr : List Event) :
    cmdsOf (Event.cmd c :: tr) = c :: cmdsOf tr := rfl

/-- A fully successful run returns 0 and the full trace. -/
theorem runSeq_ok (env : Nat → Int) :
    ∀ (steps : List Step) (k : Nat),
      (∀ j, j < steps.length → 0 ≤ env (k + j)) →
      runSeq env steps k = (0, fullTrace steps) := by
  intro steps
  induction steps with
  | nil => intro k _; rfl
  | cons s rest ih =>
      intro k h
      have h0 : 0 ≤ env k := by simpa using h 0 (by simp)
      have hk : ¬ env k < 0 := not_lt.mpr h0
      have hrest : runSeq env rest (k + 1) = (0, fullTrace rest) := by
        refine ih (k + 1) (fun j hj => ?_)
        have := h (j + 1) (by simpa using Nat.succ_lt_succ hj)
        have heq : k + (j + 1) = k + 1 + j := by omega
        rwa [heq] at this
      simp [runSeq, hk, hrest, fullTrace]

/-- If the first `i` transmissions succeed and the `i`-th (0-based)
fails, the run returns the failing transmission's result and its trace
contains exactly the first `i + 1` commands, each once. -/
theorem runSeq_fail (env : Nat → Int) :
    ∀ (steps : List Step) (i k : Nat),
      (∀ j, j < i → 0 ≤ env (k + j)) → env (k + i) < 0 → i < steps.length →
      (runSeq env steps k).1 = env (k + i) ∧
      cmdsOf (runSeq env steps k).2 = (cmdList steps).take (i + 1) := by
  intro steps
  induction steps with
  | nil => intro i k _ _ hi; exact absurd hi (by simp)
  | cons s rest ih =>
      intro i k hpre hfail hi
      cases i with
      | zero =>
          have hk : env k < 0 := by simpa using hfail
          constructor
          · simp [runSeq, hk]
          · simp [runSeq, hk, cmdsOf, cmdList]
      | succ i =>
          have h0 : 0 ≤ env k := by simpa using hpre 0 (Nat.succ_pos i)
          have hk : ¬ env k < 0 := not_lt.mpr h0
          have hfail' : env (k + 1 + i) < 0 := by
            have heq : k + (i + 1) = k + 1 + i := by omega
            rwa [heq] at hfail
          have hrec := ih i (k + 1)
            (fun j hj => by
              have := hpre (j + 1) (Nat.succ_lt_succ hj)
              have heq : k + (j + 1) = k + 1 + j := by omega
              rwa [heq] at this)
            hfail'
            (by simpa using Nat.lt_of_succ_lt_succ hi)
          constructor
          · have heq : k + (i + 1) = k + 1 + i := by omega
            rw [heq]
            simpa [runSeq, hk] using hrec.1
          · have := hrec.2
            simp [runSeq, hk, cmdsOf_append, cmdsOf_delayEvents, cmdsOf_cons_cmd,
              cmdList, this]

/-- Any run's command trace is a prefix (a `take`) of the sequence's
command list. -/
theorem runSeq_take (env : Nat → Int) :
    ∀ (steps : List Step) (k : Nat), ∃ n, n ≤ steps.length ∧
      cmdsOf (runSeq env steps k).2 = (cmdList steps).take n := by
  intro steps
  induction steps with
  | nil => intro k; exact ⟨0, by simp, rfl⟩
  | cons s rest ih =>
      intro k
      by_cases hk : env k < 0
      · refine ⟨1, by simp, ?_⟩
        simp [runSeq, hk, cmdsOf, cmdList]
      · obtain ⟨n, hn, he⟩ := ih (k + 1)
        refine ⟨n + 1, by simpa using Nat.succ_le_succ hn, ?_⟩
        simp [runSeq, hk, cmdsOf_append, cmdsOf_delayEvents, cmdsOf_cons_cmd,
          cmdList] at he ⊢
        simpa [cmdList] using he

/-- `precedes` is preserved by truncation: positions in a prefix are
positions in the full list. -/
theorem precedes_take (a b : DsiCmd) (l : List DsiCmd) (n : Nat)
    (h : precedes a b l) : precedes a b (l.take n) := by
  intro i j hi hj
  have hlen : (l.take n).length ≤ l.length := by
    rw [List.length_take n l]; exact min_le_right n l.length
  have hil : (i : Nat) < l.length := lt_of_lt_of_le i.isLt hlen
  have hjl : (j : Nat) < l.length := lt_of_lt_of_le j.isLt hlen
  refine h ⟨i, hil⟩ ⟨j, hjl⟩ ?_ ?_
  · rw [← hi]
    exact (List.getElem_take l).symm
  · rw [← hj]
    exact (List.getElem_take l).symm

/-- Setting the LPM bit makes the LPM bit of the flag word equal the
mask. -/
theorem lpmBit_setLPM (f : Nat) : lpmBit (setLPM f) = MIPI_DSI_MODE_LPM := by
  unfold lpmBit setLPM MIPI_DSI_MODE_LPM
  rw [Nat.and_two_pow, Nat.testBit_lor]
  have h2 : Nat.testBit 2048 11 = true := by decide
  simp [h2]

/-- Clearing the LPM bit zeroes the LPM bit of the flag word. -/
theorem lpmBit_clearLPM (f : Nat) : lpmBit (clearLPM f) = 0 := by
  unfold lpmBit clearLPM MIPI_DSI_MODE_LPM
  rw [Nat.and_two_pow, Nat.testBit_land]
  have hM : Nat.testBit 18446744073709549567 11 = false := by decide
  simp [hM]

/-- The reset pulse issues no bus commands. -/
theorem cmdsOf_reset_trace : cmdsOf samsung_ea8074_reset_trace = [] := rfl

theorem cmdsOf_nil : cmdsOf [] = [] := rfl

theorem cmdsOf_cons_devErr (tr : List Event) :
    cmdsOf (Event.devErr :: tr) = cmdsOf tr := rfl

theorem cmdsOf_cons_setReset (v : Nat) (tr : List Event) :
    cmdsOf (Event.setReset v :: tr) = cmdsOf tr := rfl

/-- `prepare` on an already-prepared panel is a no-op success with an
empty trace. -/
theorem prepare_noop_of_prepared (env : Nat → Int) (st : PanelState)
    (hp : st.prepared = true) : samsung_ea8074_prepare env st = (0, st, []) := by
  simp [samsung_ea8074_prepare, hp]

/-- The command projection of a full trace is the sequence's command
list. -/
theorem cmdsOf_fullTrace (steps : List Step) :
    cmdsOf (fullTrace steps) = cmdList steps := by
  induction steps with
  | nil => rfl
  | cons s rest ih =>
      simp [fullTrace, cmdsOf_cons_cmd, cmdsOf_append, cmdsOf_delayEvents,
        cmdList, ih]

/-! ## Claim theorems -/

/-- C1, counterexample: starting from the probe-time `mode_flags`
(LPM set), a transport failure in either backlight operation leaves
`MIPI_DSI_MODE_LPM` cleared, so the flag's value after the call does
not equal its value before the call. -/
theorem bl_lpm_flag_not_restored_on_failure :
    lpmBit probeModeFlags = MIPI_DSI_MODE_LPM ∧
    MIPI_DSI_MODE_LPM ≠ 0 ∧
    (samsung_ea8074_bl_update_status (-5) 512 probeModeFlags).1 < 0 ∧
    lpmBit (samsung_ea8074_bl_update_status (-5) 512 probeModeFlags).2.1 = 0 ∧
    (samsung_ea8074_bl_get_brightness (-5) 0 0 probeModeFlags).1 < 0 ∧
    lpmBit (samsung_ea8074_bl_get_brightness (-5) 0 0 probeModeFlags).2 = 0 := by
  decide

/-- C1, amended: both backlight operations leave the LPM flag set when
the underlying brightness command succeeds, and leave it cleared when
the command fails (the early error return skips the restore). -/
theorem bl_lpm_flag_behavior (wr rd : Int) (brightness b0 b1 flags : Nat) :
    (0 ≤ wr →
      lpmBit (samsung_ea8074_bl_update_status wr brightness flags).2.1 =
        MIPI_DSI_MODE_LPM) ∧
    (wr < 0 →
      lpmBit (samsung_ea8074_bl_update_status wr brightness flags).2.1 = 0) ∧
    (0 ≤ rd →
      lpmBit (samsung_ea8074_bl_get_brightness rd b0 b1 flags).2 =
        MIPI_DSI_MODE_LPM) ∧
    (rd < 0 →
      lpmBit (samsung_ea8074_bl_get_brightness rd b0 b1 flags).2 = 0) := by
  refine ⟨fun h => ?_, fun h => ?_, fun h => ?_, fun h => ?_⟩
  · have hn : ¬ wr < 0 := not_lt.mpr h
    simp [samsung_ea8074_bl_update_status, hn, lpmBit_setLPM]
  · simp [samsung_ea8074_bl_update_status, h, lpmBit_clearLPM]
  · have hn : ¬ rd < 0 := not_lt.mpr h
    simp [samsung_ea8074_bl_get_brightness, hn, lpmBit_setLPM]
  · simp [samsung_ea8074_bl_get_brightness, h, lpmBit_clearLPM]

/-- Witness for the amended C1 at concrete inputs. -/
theorem bl_lpm_flag_behavior_witness :
    lpmBit (samsung_ea8074_bl_update_status 0 512 probeModeFlags).2.1 =
      MIPI_DSI_MODE_LPM ∧
    lpmBit (samsung_ea8074_bl_get_brightness (-5) 0 0 probeModeFlags).2 = 0 :=
  ⟨(bl_lpm_flag_behavior 0 (-5) 512 0 0 probeModeFlags).1 (by decide),
   (bl_lpm_flag_behavior 0 (-5) 512 0 0 probeModeFlags).2.2.2 (by decide)⟩

/-- C9, counterexample: a successful 2-byte brightness read of bytes
0x07, 0xD0 makes `get_brightness` return 2000, a non-error value
outside [0, 1023]. -/
theorem get_brightness_out_of_range :
    0 ≤ (samsung_ea8074_bl_get_brightness 0 0x07 0xD0 probeModeFlags).1 ∧
    1023 < (samsung_ea8074_bl_get_brightness 0 0x07 0xD0 probeModeFlags).1 ∧
    (samsung_ea8074_bl_get_brightness 0 0x07 0xD0 probeModeFlags).1 = 2000 := by
  decide

/-- C9, amended: `get_brightness` returns the transport error on
failure, and otherwise the raw 16-bit value read, which lies in
[0, 65535]; the code performs no clamping to the advertised [0, 1023]
scale. -/
theorem get_brightness_result_range (rd : Int) (b0 b1 flags : Nat) :
    (rd < 0 → (samsung_ea8074_bl_get_brightness rd b0 b1 flags).1 = rd) ∧
    (0 ≤ rd →
      0 ≤ (samsung_ea8074_bl_get_brightness rd b0 b1 flags).1 ∧
      (samsung_ea8074_bl_get_brightness rd b0 b1 flags).1 ≤ 65535) := by
  constructor
  · intro h
    simp [samsung_ea8074_bl_get_brightness, h]
  · intro h
    have hn : ¬ rd < 0 := not_lt.mpr h
    unfold samsung_ea8074_bl_get_brightness
    simp only [hn, if_false]
    refine ⟨Int.ofNat_nonneg _, ?_⟩
    have h1 : (b0 % 256) * 256 + b1 % 256 ≤ 65535 := by omega
    exact Int.ofNat_le.mpr h1

/-- Witness for the amended C9 at concrete inputs. -/
theorem get_brightness_result_range_witness :
    (samsung_ea8074_bl_get_brightness (-3) 7 208 probeModeFlags).1 = -3 ∧
    (0 ≤ (samsung_ea8074_bl_get_brightness 0 7 208 probeModeFlags).1 ∧
      (samsung_ea8074_bl_get_brightness 0 7 208 probeModeFlags).1 ≤ 65535) :=
  ⟨(get_brightness_result_range (-3) 7 208 probeModeFlags).1 (by decide),
   (get_brightness_result_range 0 7 208 probeModeFlags).2 (by decide)⟩

/-- C7: the power-on sequence's column-address command covers
0..0x0437 and its page-address command covers 0..0x086F, and these
upper bounds are the mode's active width minus one (1079) and active
height minus one (2159). -/
theorem addressing_matches_mode_geometry :
    (cmdList onSteps)[1]? =
      some (mipi_dsi_dcs_set_column_address 0x0000 0x0437) ∧
    (cmdList onSteps)[2]? =
      some (mipi_dsi_dcs_set_page_address 0x0000 0x086F) ∧
    0x0437 = samsung_ea8074_mode.hdisplay - 1 ∧
    0x086F = samsung_ea8074_mode.vdisplay - 1 ∧
    samsung_ea8074_mode.hdisplay = 1080 ∧
    samsung_ea8074_mode.vdisplay = 2160 := by
  decide

/-- C8: the mode's pixel clock equals htotal × vtotal × 60 / 1000
computed from the same record's total fields. -/
theorem mode_clock_derived_from_totals :
    samsung_ea8074_mode.clock =
      samsung_ea8074_mode.htotal * samsung_ea8074_mode.vtotal * 60 / 1000 ∧
    samsung_ea8074_mode.htotal = 1080 + 48 + 16 + 48 ∧
    samsung_ea8074_mode.vtotal = 2160 + 20 + 12 + 28 := by
  decide

/-- C2: if `prepare` is called unprepared and the power-on sequence's
transmission `k` is the first to fail, `prepare` returns that failure,
the reset GPIO ends asserted, `prepared` stays false, and exactly the
first `k + 1` commands were sent, each once (no retry). -/
theorem prepare_rollback_on_step_failure (env : Nat → Int) (st : PanelState)
    (k : Nat) (hp : st.prepared = false) (hk : k < onSteps.length)
    (hpre : ∀ j, j < k → 0 ≤ env j) (hfail : env k < 0) :
    (samsung_ea8074_prepare env st).1 = env k ∧
    (samsung_ea8074_prepare env st).2.1.prepared = false ∧
    (samsung_ea8074_prepare env st).2.1.reset = 1 ∧
    cmdsOf (samsung_ea8074_prepare env st).2.2 = (cmdList onSteps).take (k + 1) := by
  have hres := runSeq_fail env onSteps k 0
    (fun j hj => by simpa using hpre j hj) (by simpa using hfail) hk
  have h1 : (samsung_ea8074_on env).1 = env k := by
    simpa [samsung_ea8074_on] using hres.1
  have h2 : cmdsOf (samsung_ea8074_on env).2 = (cmdList onSteps).take (k + 1) := by
    simpa [samsung_ea8074_on] using hres.2
  have hneg : (samsung_ea8074_on env).1 < 0 := by rw [h1]; exact hfail
  refine ⟨?_, ?_, ?_, ?_⟩ <;>
    simp [samsung_ea8074_prepare, hp, hneg, hfail, h1, h2, cmdsOf_append,
      cmdsOf_reset_trace, cmdsOf_nil, cmdsOf_cons_devErr, cmdsOf_cons_setReset]

/-- Witness for C2: failure at step 3 with error -6. -/
theorem prepare_rollback_on_step_failure_witness :
    (samsung_ea8074_prepare (fun j => if j = 3 then (-6 : Int) else 0) probeState).1 = -6 ∧
    (samsung_ea8074_prepare (fun j => if j = 3 then (-6 : Int) else 0) probeState).2.1.prepared = false ∧
    (samsung_ea8074_prepare (fun j => if j = 3 then (-6 : Int) else 0) probeState).2.1.reset = 1 ∧
    cmdsOf (samsung_ea8074_prepare (fun j => if j = 3 then (-6 : Int) else 0) probeState).2.2 =
      (cmdList onSteps).take 4 :=
  prepare_rollback_on_step_failure (fun j => if j = 3 then (-6 : Int) else 0)
    probeState 3 rfl (by decide) (by decide) (by decide)

/-- C3, counterexample: with a transport failing on every transmission
(error -5), the power-off sequence fails with -5, yet `unprepare` on a
prepared panel returns 0 — the error is not carried by the result. -/
theorem unprepare_suppresses_error_code :
    (samsung_ea8074_off (fun _ => (-5 : Int))).1 = -5 ∧
    (samsung_ea8074_unprepare (fun _ => (-5 : Int)) ⟨true, 0⟩).1 = 0 := by
  decide

/-- C3, amended: a power-off failure during `unprepare` is reported
via the diagnostic log only; `unprepare` returns 0, while still
completing the reset assertion and the transition to unprepared. -/
theorem unprepare_logs_error_and_completes (env : Nat → Int) (st : PanelState)
    (hp : st.prepared = true) (hfail : (samsung_ea8074_off env).1 < 0) :
    (samsung_ea8074_unprepare env st).1 = 0 ∧
    Event.devErr ∈ (samsung_ea8074_unprepare env st).2.2 ∧
    (samsung_ea8074_unprepare env st).2.1.reset = 1 ∧
    (samsung_ea8074_unprepare env st).2.1.prepared = false := by
  refine ⟨?_, ?_, ?_, ?_⟩ <;> simp [samsung_ea8074_unprepare, hp, hfail]

/-- Witness for the amended C3. -/
theorem unprepare_logs_error_and_completes_witness :
    (samsung_ea8074_unprepare (fun _ => (-5 : Int)) ⟨true, 0⟩).1 = 0 ∧
    Event.devErr ∈ (samsung_ea8074_unprepare (fun _ => (-5 : Int)) ⟨true, 0⟩).2.2 ∧
    (samsung_ea8074_unprepare (fun _ => (-5 : Int)) ⟨true, 0⟩).2.1.reset = 1 ∧
    (samsung_ea8074_unprepare (fun _ => (-5 : Int)) ⟨true, 0⟩).2.1.prepared = false :=
  unprepare_logs_error_and_completes (fun _ => (-5 : Int)) ⟨true, 0⟩ rfl (by decide)

/-- C4: if `unprepare` is called prepared and the first power-off step
(display-off) fails, the reset GPIO is still asserted and `prepared`
is false when `unprepare` returns. -/
theorem unprepare_best_effort_teardown (env : Nat → Int) (st : PanelState)
    (hp : st.prepared = true) (_hfail : env 0 < 0) :
    (samsung_ea8074_unprepare env st).2.1.reset = 1 ∧
    (samsung_ea8074_unprepare env st).2.1.prepared = false := by
  constructor <;> simp [samsung_ea8074_unprepare, hp]

/-- Witness for C4. -/
theorem unprepare_best_effort_teardown_witness :
    (samsung_ea8074_unprepare (fun _ => (-5 : Int)) ⟨true, 0⟩).2.1.reset = 1 ∧
    (samsung_ea8074_unprepare (fun _ => (-5 : Int)) ⟨true, 0⟩).2.1.prepared = false :=
  unprepare_best_effort_teardown (fun _ => (-5 : Int)) ⟨true, 0⟩ rfl (by decide)

/-- C5: a successful `prepare` from the unprepared state issues the
power-on command sequence once and sets `prepared`; a second `prepare`
with no intervening `unprepare` returns success with an empty trace —
zero transport commands and no reset GPIO write. -/
theorem prepare_twice_noop (env1 env2 : Nat → Int) (st : PanelState)
    (hp : st.prepared = false) (hok : ∀ j, j < onSteps.length → 0 ≤ env1 j) :
    (samsung_ea8074_prepare env1 st).1 = 0 ∧
    (samsung_ea8074_prepare env1 st).2.1.prepared = true ∧
    cmdsOf (samsung_ea8074_prepare env1 st).2.2 = cmdList onSteps ∧
    samsung_ea8074_prepare env2 (samsung_ea8074_prepare env1 st).2.1 =
      (0, (samsung_ea8074_prepare env1 st).2.1, []) := by
  have hone : samsung_ea8074_on env1 = (0, fullTrace onSteps) := by
    simpa [samsung_ea8074_on] using
      runSeq_ok env1 onSteps 0 (fun j hj => by simpa using hok j hj)
  have hnotneg : ¬ (samsung_ea8074_on env1).1 < 0 := by rw [hone]; decide
  refine ⟨?_, ?_, ?_, ?_⟩
  · simp [samsung_ea8074_prepare, hp, hnotneg]
  · simp [samsung_ea8074_prepare, hp, hnotneg]
  · simp [samsung_ea8074_prepare, hp, hnotneg, hone, cmdsOf_append,
      cmdsOf_reset_trace, cmdsOf_fullTrace]
  · have hprep : (samsung_ea8074_prepare env1 st).2.1.prepared = true := by
      simp [samsung_ea8074_prepare, hp, hnotneg]
    exact prepare_noop_of_prepared env2 _ hprep

/-- Witness for C5 on an always-succeeding transport. -/
theorem prepare_twice_noop_witness :
    (samsung_ea8074_prepare (fun _ => (0 : Int)) probeState).1 = 0 ∧
    (samsung_ea8074_prepare (fun _ => (0 : Int)) probeState).2.1.prepared = true ∧
    cmdsOf (samsung_ea8074_prepare (fun _ => (0 : Int)) probeState).2.2 = cmdList onSteps ∧
    samsung_ea8074_prepare (fun _ => (0 : Int))
        (samsung_ea8074_prepare (fun _ => (0 : Int)) probeState).2.1 =
      (0, (samsung_ea8074_prepare (fun _ => (0 : Int)) probeState).2.1, []) :=
  prepare_twice_noop (fun _ => (0 : Int)) (fun _ => (0 : Int)) probeState rfl (by decide)

/-- C6: in every execution of the power-on sequence (any transport
behavior), every column-address command precedes every page-address
command, every page-address command precedes every memory-write-start
command, and every memory-write-start command precedes every
display-on command — in particular the final one. -/
theorem power_on_command_ordering (env : Nat → Int) :
    precedes (mipi_dsi_dcs_set_column_address 0x0000 0x0437)
      (mipi_dsi_dcs_set_page_address 0x0000 0x086F)
      (cmdsOf (samsung_ea8074_on env).2) ∧
    precedes (mipi_dsi_dcs_set_page_address 0x0000 0x086F)
      (dcs_write_seq MIPI_DCS_WRITE_MEMORY_START [])
      (cmdsOf (samsung_ea8074_on env).2) ∧
    precedes (dcs_write_seq MIPI_DCS_WRITE_MEMORY_START [])
      mipi_dsi_dcs_set_display_on
      (cmdsOf (samsung_ea8074_on env).2) := by
  obtain ⟨n, hn, he⟩ := runSeq_take env onSteps 0
  have he' : cmdsOf (samsung_ea8074_on env).2 = (cmdList onSteps).take n := by
    simpa [samsung_ea8074_on] using he
  have hfull :
      precedes (mipi_dsi_dcs_set_column_address 0x0000 0x0437)
        (mipi_dsi_dcs_set_page_address 0x0000 0x086F) (cmdList onSteps) ∧
      precedes (mipi_dsi_dcs_set_page_address 0x0000 0x086F)
        (dcs_write_seq MIPI_DCS_WRITE_MEMORY_START []) (cmdList onSteps) ∧
      precedes (dcs_write_seq MIPI_DCS_WRITE_MEMORY_START [])
        mipi_dsi_dcs_set_display_on (cmdList onSteps) := by
    decide
  rw [he']
  exact ⟨precedes_take _ _ _ n hfull.1, precedes_take _ _ _ n hfull.2.1,
    precedes_take _ _ _ n hfull.2.2⟩

/-- C10: in an error-free power-on run, display-on is sent exactly
twice: immediately after memory-write-start, and again as the last
command, followed only by the final 120 ms settle delay. -/
theorem power_on_display_on_twice (env : Nat → Int)
    (hok : ∀ j, j < onSteps.length → 0 ≤ env j) :
    (cmdsOf (samsung_ea8074_on env).2).count mipi_dsi_dcs_set_display_on = 2 ∧
    (cmdsOf (samsung_ea8074_on env).2).indexOf mipi_dsi_dcs_set_display_on =
      (cmdsOf (samsung_ea8074_on env).2).indexOf
        (dcs_write_seq MIPI_DCS_WRITE_MEMORY_START []) + 1 ∧
    (cmdsOf (samsung_ea8074_on env).2).getLast? =
      some mipi_dsi_dcs_set_display_on ∧
    ((samsung_ea8074_on env).2).getLast? =
      some (Event.sleep (Delay.msleep 120)) ∧
    ((samsung_ea8074_on env).2).dropLast.getLast? =
      some (Event.cmd mipi_dsi_dcs_set_display_on) := by
  have hone : samsung_ea8074_on env = (0, fullTrace onSteps) := by
    simpa [samsung_ea8074_on] using
      runSeq_ok env onSteps 0 (fun j hj => by simpa using hok j hj)
  rw [hone]
  decide

/-- Witness for C10 on an always-succeeding transport. -/
theorem power_on_display_on_twice_witness :
    (cmdsOf (samsung_ea8074_on (fun _ => (0 : Int))).2).count
      mipi_dsi_dcs_set_display_on = 2 ∧
    (cmdsOf (samsung_ea8074_on (fun _ => (0 : Int))).2).indexOf
        mipi_dsi_dcs_set_display_on =
      (cmdsOf (samsung_ea8074_on (fun _ => (0 : Int))).2).indexOf
        (dcs_write_seq MIPI_DCS_WRITE_MEMORY_START []) + 1 ∧
    (cmdsOf (samsung_ea8074_on (fun _ => (0 : Int))).2).getLast? =
      some mipi_dsi_dcs_set_display_on ∧
    ((samsung_ea8074_on (fun _ => (0 : Int))).2).getLast? =
      some (Event.sleep (Delay.msleep 120)) ∧
    ((samsung_ea8074_on (fun _ => (0 : Int))).2).dropLast.getLast? =
      some (Event.cmd mipi_dsi_dcs_set_display_on) :=
  power_on_display_on_twice (fun _ => (0 : Int)) (by decide)
